import Mathlib

/-!
Verification of the exchange core of the gocryptotrader repository.

The definitions below are a shallow embedding of the Go source in
src/exchanges/exchange.go and the connector wrappers (bittrex, itbit,
gateio).  Stateful Go methods become explicit state-passing functions,
uint32 bitmasks become Nat, fallible calls return Except/Option.
Helper packages of the repository that are not part of the provided
sources (common, currency/pair, ticker, config, request) are modelled
from the specification; each such definition carries a doc comment
beginning with "Modelled from the spec:".
-/

set_option autoImplicit false

/-- Shallow embedding of the exchange.Base profile record
(src/exchanges/exchange.go).  Field defaults are the Go zero values.
The owned Requester and the optional Websocket sub-connection are
flattened into the record as the proxy state they carry
(requesterProxy, hasWebsocket, websocketProxy). -/
structure Base where
  name : String := ""
  enabled : Bool := false
  verbose : Bool := false
  authenticatedAPISupport : Bool := false
  apiWithdrawPermissions : Nat := 0
  apiSecret : String := ""
  apiKey : String := ""
  clientID : String := ""
  baseCurrencies : List String := []
  availablePairs : List String := []
  enabledPairs : List String := []
  assetTypes : List String := []
  pairsLastUpdated : Int := 0
  supportsAutoPairUpdating : Bool := false
  supportsRESTTickerBatching : Bool := false
  apiUrl : String := ""
  apiUrlDefault : String := ""
  apiUrlSecondary : String := ""
  apiUrlSecondaryDefault : String := ""
  requesterProxy : Option String := none
  hasWebsocket : Bool := false
  websocketProxy : Option String := none
  deriving DecidableEq

/-- Withdrawal method bit NoAPIWithdrawalMethods (exchange.go). -/
def NoAPIWithdrawalMethods : Nat := 0

/-- Sentinel text for the zero bitmask (exchange.go). -/
def NoAPIWithdrawalMethodsText : String := "NONE, WEBSITE ONLY"

/-- Withdrawal method bit (exchange.go). -/
def AutoWithdrawCrypto : Nat := 1 <<< 0

/-- Withdrawal method bit (exchange.go). -/
def AutoWithdrawCryptoWithAPIPermission : Nat := 1 <<< 1

/-- Withdrawal method bit (exchange.go). -/
def AutoWithdrawCryptoWithSetup : Nat := 1 <<< 2

/-- Withdrawal method label (exchange.go). -/
def AutoWithdrawCryptoText : String := "AUTO WITHDRAW CRYPTO"

/-- Withdrawal method label (exchange.go). -/
def AutoWithdrawCryptoWithAPIPermissionText : String :=
  "AUTO WITHDRAW CRYPTO WITH API PERMISSION"

/-- Withdrawal method label (exchange.go). -/
def AutoWithdrawCryptoWithSetupText : String := "AUTO WITHDRAW CRYPTO WITH SETUP"

/-- Withdrawal method bit (exchange.go). -/
def WithdrawCryptoWith2FA : Nat := 1 <<< 3

/-- Withdrawal method bit (exchange.go). -/
def WithdrawCryptoWithSMS : Nat := 1 <<< 4

/-- Withdrawal method bit (exchange.go). -/
def WithdrawCryptoWithEmail : Nat := 1 <<< 5

/-- Withdrawal method bit (exchange.go). -/
def WithdrawCryptoWithWebsiteApproval : Nat := 1 <<< 6

/-- Withdrawal method bit (exchange.go). -/
def WithdrawCryptoWithAPIPermission : Nat := 1 <<< 7

/-- Withdrawal method label (exchange.go). -/
def WithdrawCryptoWith2FAText : String := "WITHDRAW CRYPTO WITH 2FA"

/-- Withdrawal method label (exchange.go). -/
def WithdrawCryptoWithSMSText : String := "WITHDRAW CRYPTO WITH SMS"

/-- Withdrawal method label (exchange.go). -/
def WithdrawCryptoWithEmailText : String := "WITHDRAW CRYPTO WITH EMAIL"

/-- Withdrawal method label (exchange.go). -/
def WithdrawCryptoWithWebsiteApprovalText : String :=
  "WITHDRAW CRYPTO WITH WEBSITE APPROVAL"

/-- Withdrawal method label (exchange.go). -/
def WithdrawCryptoWithAPIPermissionText : String :=
  "WITHDRAW CRYPTO WITH API PERMISSION"

/-- Withdrawal method bit (exchange.go). -/
def AutoWithdrawFiat : Nat := 1 <<< 8

/-- Withdrawal method bit (exchange.go). -/
def AutoWithdrawFiatWithAPIPermission : Nat := 1 <<< 9

/-- Withdrawal method bit (exchange.go). -/
def AutoWithdrawFiatWithSetup : Nat := 1 <<< 10

/-- Withdrawal method label (exchange.go). -/
def AutoWithdrawFiatText : String := "AUTO WITHDRAW FIAT"

/-- Withdrawal method label (exchange.go). -/
def AutoWithdrawFiatWithAPIPermissionText : String :=
  "AUTO WITHDRAW FIAT WITH API PERMISSION"

/-- Withdrawal method label (exchange.go). -/
def AutoWithdrawFiatWithSetupText : String := "AUTO WITHDRAW FIAT WITH SETUP"

/-- Withdrawal method bit (exchange.go). -/
def WithdrawFiatWith2FA : Nat := 1 <<< 11

/-- Withdrawal method bit (exchange.go). -/
def WithdrawFiatWithSMS : Nat := 1 <<< 12

/-- Withdrawal method bit (exchange.go). -/
def WithdrawFiatWithEmail : Nat := 1 <<< 13

/-- Withdrawal method bit (exchange.go). -/
def WithdrawFiatWithWebsiteApproval : Nat := 1 <<< 14

/-- Withdrawal method bit (exchange.go). -/
def WithdrawFiatWithAPIPermission : Nat := 1 <<< 15

/-- Withdrawal method label (exchange.go). -/
def WithdrawFiatWith2FAText : String := "WITHDRAW FIAT WITH 2FA"

/-- Withdrawal method label (exchange.go). -/
def WithdrawFiatWithSMSText : String := "WITHDRAW FIAT WITH SMS"

/-- Withdrawal method label (exchange.go). -/
def WithdrawFiatWithEmailText : String := "WITHDRAW FIAT WITH EMAIL"

/-- Withdrawal method label (exchange.go). -/
def WithdrawFiatWithWebsiteApprovalText : String :=
  "WITHDRAW FIAT WITH WEBSITE APPROVAL"

/-- Withdrawal method label (exchange.go). -/
def WithdrawFiatWithAPIPermissionText : String :=
  "WITHDRAW FIAT WITH API PERMISSION"

/-- Withdrawal method bit (exchange.go). -/
def WithdrawCryptoViaWebsiteOnly : Nat := 1 <<< 16

/-- Withdrawal method bit (exchange.go). -/
def WithdrawFiatViaWebsiteOnly : Nat := 1 <<< 17

/-- Withdrawal method label (exchange.go). -/
def WithdrawCryptoViaWebsiteOnlyText : String :=
  "WITHDRAW CRYPTO VIA WEBSITE ONLY"

/-- Withdrawal method label (exchange.go). -/
def WithdrawFiatViaWebsiteOnlyText : String := "WITHDRAW FIAT VIA WEBSITE ONLY"

/-- Label prefixed to unmapped bits (exchange.go). -/
def UnknownWithdrawalTypeText : String := "UNKNOWN"

/-- Embedding of Base.GetWithdrawPermissions (exchange.go lines 810-812). -/
def getWithdrawPermissions (e : Base) : Nat :=
  e.apiWithdrawPermissions

/-- Embedding of Base.SupportsWithdrawPermissions (exchange.go lines
815-821): compares the supplied permissions with the exchange granted
set by masking. -/
def supportsWithdrawPermissions (e : Base) (permissions : Nat) : Bool :=
  let exchangePermissions := getWithdrawPermissions e
  if permissions &&& exchangePermissions = permissions then true else false

/-- Embedding of the switch statement inside Base.FormatWithdrawPermissions
(exchange.go lines 829-868): the label produced for bit position i when
that bit is set, with the same case order as the source. -/
def withdrawPermissionLabel (i : Nat) : String :=
  let check : Nat := 1 <<< i
  if check = AutoWithdrawCrypto then AutoWithdrawCryptoText
  else if check = AutoWithdrawCryptoWithAPIPermission then
    AutoWithdrawCryptoWithAPIPermissionText
  else if check = AutoWithdrawCryptoWithSetup then AutoWithdrawCryptoWithSetupText
  else if check = WithdrawCryptoWith2FA then WithdrawCryptoWith2FAText
  else if check = WithdrawCryptoWithSMS then WithdrawCryptoWithSMSText
  else if check = WithdrawCryptoWithEmail then WithdrawCryptoWithEmailText
  else if check = WithdrawCryptoWithWebsiteApproval then
    WithdrawCryptoWithWebsiteApprovalText
  else if check = WithdrawCryptoWithAPIPermission then
    WithdrawCryptoWithAPIPermissionText
  else if check = AutoWithdrawFiat then AutoWithdrawFiatText
  else if check = AutoWithdrawFiatWithAPIPermission then
    AutoWithdrawFiatWithAPIPermissionText
  else if check = AutoWithdrawFiatWithSetup then AutoWithdrawFiatWithSetupText
  else if check = WithdrawFiatWith2FA then WithdrawFiatWith2FAText
  else if check = WithdrawFiatWithSMS then WithdrawFiatWithSMSText
  else if check = WithdrawFiatWithEmail then WithdrawFiatWithEmailText
  else if check = WithdrawFiatWithWebsiteApproval then
    WithdrawFiatWithWebsiteApprovalText
  else if check = WithdrawFiatWithAPIPermission then
    WithdrawFiatWithAPIPermissionText
  else if check = WithdrawCryptoViaWebsiteOnly then
    WithdrawCryptoViaWebsiteOnlyText
  else if check = WithdrawFiatViaWebsiteOnly then WithdrawFiatViaWebsiteOnlyText
  else UnknownWithdrawalTypeText ++ "[1<<" ++ toString i ++ "]"

/-- Embedding of Base.FormatWithdrawPermissions (exchange.go lines
824-876): scan bit positions 0 through 31 in order, collect a label for
every set bit, join the labels with an ampersand separator, and fall
back to the sentinel text when no bit is set. -/
def formatWithdrawPermissions (e : Base) : String :=
  let services := (List.range 32).filterMap (fun i =>
    if getWithdrawPermissions e &&& (1 <<< i) ≠ 0 then
      some (withdrawPermissionLabel i)
    else none)
  if services.length > 0 then String.intercalate (" & ") services
  else NoAPIWithdrawalMethodsText

/-- Fixed bit-to-label lookup table, written down from the constant list
of the source, used to state the spec reading of the formatter. -/
def withdrawPermissionTable : List (Nat × String) :=
  [(AutoWithdrawCrypto, AutoWithdrawCryptoText),
   (AutoWithdrawCryptoWithAPIPermission, AutoWithdrawCryptoWithAPIPermissionText),
   (AutoWithdrawCryptoWithSetup, AutoWithdrawCryptoWithSetupText),
   (WithdrawCryptoWith2FA, WithdrawCryptoWith2FAText),
   (WithdrawCryptoWithSMS, WithdrawCryptoWithSMSText),
   (WithdrawCryptoWithEmail, WithdrawCryptoWithEmailText),
   (WithdrawCryptoWithWebsiteApproval, WithdrawCryptoWithWebsiteApprovalText),
   (WithdrawCryptoWithAPIPermission, WithdrawCryptoWithAPIPermissionText),
   (AutoWithdrawFiat, AutoWithdrawFiatText),
   (AutoWithdrawFiatWithAPIPermission, AutoWithdrawFiatWithAPIPermissionText),
   (AutoWithdrawFiatWithSetup, AutoWithdrawFiatWithSetupText),
   (WithdrawFiatWith2FA, WithdrawFiatWith2FAText),
   (WithdrawFiatWithSMS, WithdrawFiatWithSMSText),
   (WithdrawFiatWithEmail, WithdrawFiatWithEmailText),
   (WithdrawFiatWithWebsiteApproval, WithdrawFiatWithWebsiteApprovalText),
   (WithdrawFiatWithAPIPermission, WithdrawFiatWithAPIPermissionText),
   (WithdrawCryptoViaWebsiteOnly, WithdrawCryptoViaWebsiteOnlyText),
   (WithdrawFiatViaWebsiteOnly, WithdrawFiatViaWebsiteOnlyText)]

/-- Spec reading of the formatter: scan bits 0 through 31, map each set
bit to its label through the fixed lookup table, render unmapped set
bits with the UNKNOWN text, join with an ampersand separator, and
return the sentinel for the zero mask.  Stated per the words of the
spec, to be compared with formatWithdrawPermissions. -/
def formatWithdrawPermissionsSpec (granted : Nat) : String :=
  let services := (List.range 32).filterMap (fun i =>
    if granted &&& (1 <<< i) ≠ 0 then
      some (match withdrawPermissionTable.lookup (1 <<< i) with
        | some label => label
        | none => UnknownWithdrawalTypeText ++ "[1<<" ++ toString i ++ "]")
    else none)
  if services.length > 0 then String.intercalate (" & ") services
  else NoAPIWithdrawalMethodsText

/-- The per-bit label of the source switch agrees with the lookup-table
reading on every scanned bit position. -/
theorem withdrawPermissionLabel_eq_table :
    ∀ i ∈ List.range 32,
      withdrawPermissionLabel i =
        (match withdrawPermissionTable.lookup (1 <<< i) with
          | some label => label
          | none => UnknownWithdrawalTypeText ++ "[1<<" ++ toString i ++ "]") := by
  decide

/-- C3: for every exchange profile and every permission mask p,
Base.SupportsWithdrawPermissions returns true exactly when masking p
with the granted permissions gives back p. -/
theorem supportsWithdrawPermissions_iff_mask (e : Base) (p : Nat) :
    supportsWithdrawPermissions e p = true ↔
      p &&& getWithdrawPermissions e = p := by
  by_cases h : p &&& getWithdrawPermissions e = p <;>
    simp [supportsWithdrawPermissions, getWithdrawPermissions, h] at *

/-- C4: Base.FormatWithdrawPermissions scans bits 0 through 31 in order,
maps each set bit to its label through the fixed lookup table, renders
unmapped set bits as UNKNOWN with the bit position, joins the labels
with an ampersand separator; the zero mask yields the sentinel text and
the AutoWithdrawCrypto mask yields exactly its label. -/
theorem formatWithdrawPermissions_correct :
    (∀ e : Base, formatWithdrawPermissions e =
        formatWithdrawPermissionsSpec (getWithdrawPermissions e)) ∧
    formatWithdrawPermissions { apiWithdrawPermissions := NoAPIWithdrawalMethods } =
      "NONE, WEBSITE ONLY" ∧
    formatWithdrawPermissions { apiWithdrawPermissions := AutoWithdrawCrypto } =
      "AUTO WITHDRAW CRYPTO" := by
  refine ⟨fun e => ?_, by decide, by decide⟩
  have hs : (List.range 32).filterMap (fun i =>
      if getWithdrawPermissions e &&& (1 <<< i) ≠ 0 then
        some (withdrawPermissionLabel i) else none) =
    (List.range 32).filterMap (fun i =>
      if getWithdrawPermissions e &&& (1 <<< i) ≠ 0 then
        some (match withdrawPermissionTable.lookup (1 <<< i) with
          | some label => label
          | none => UnknownWithdrawalTypeText ++ "[1<<" ++ toString i ++ "]")
      else none) := by
    refine List.filterMap_congr (fun i hi => ?_)
    by_cases hc : getWithdrawPermissions e &&& (1 <<< i) ≠ 0
    · simp only [if_pos hc, withdrawPermissionLabel_eq_table i hi]
    · simp only [if_neg hc]
  simp only [formatWithdrawPermissions, formatWithdrawPermissionsSpec, hs]

deriving instance DecidableEq for Except

/-- Modelled from the spec: the currency pair record of the
currency/pair package (absent from src); only the two currency codes
matter for cache identity. -/
structure CurrencyPair where
  firstCurrency : String := ""
  secondCurrency : String := ""
  deriving DecidableEq

/-- Modelled from the spec: the ticker Price record of the ticker
package (absent from src) — pair, bid, ask, last, high, low, volume;
the venue-reported numeric fields are modelled as rationals. -/
structure Price where
  pair : CurrencyPair := {}
  last : Rat := 0
  high : Rat := 0
  low : Rat := 0
  bid : Rat := 0
  ask : Rat := 0
  volume : Rat := 0
  deriving DecidableEq

/-- Identity key of the market-data cache: (exchange name, pair, asset
type). -/
abbrev TickerKey := String × CurrencyPair × String

/-- Modelled from the spec: the process-wide ticker store of the ticker
package (absent from src), keyed by (exchange, pair, assetType). -/
abbrev TickerStore := List (TickerKey × Price)

/-- Modelled from the spec: ticker.ProcessTicker (absent from src) —
inserts or replaces the snapshot for its key; each write fully replaces
the prior snapshot and no history is retained. -/
def processTicker (store : TickerStore) (exchangeName : String)
    (p : CurrencyPair) (tickerNew : Price) (assetType : String) : TickerStore :=
  ((exchangeName, p, assetType), tickerNew) ::
    store.filter (fun kv => decide (kv.1 ≠ (exchangeName, p, assetType)))

/-- Modelled from the spec: ticker.GetTicker (absent from src) —
returns the stored snapshot for the key or a cache-miss error. -/
def getTicker (store : TickerStore) (exchangeName : String)
    (p : CurrencyPair) (assetType : String) : Except String Price :=
  match store.find? (fun kv => decide (kv.1 = (exchangeName, p, assetType))) with
  | some kv => Except.ok kv.2
  | none => Except.error ("ticker not found for " ++ exchangeName)

/-- Modelled from the spec: the ticker.Spot asset-type constant of the
ticker package (absent from src). -/
def tickerSpot : String := "SPOT"

/-- Dropping the entries of one key and then searching for a different
key finds the same entry as searching the original store. -/
theorem find?_filter_key_ne (store : TickerStore) (k k2 : TickerKey)
    (h : k2 ≠ k) :
    (store.filter (fun kv => decide (kv.1 ≠ k))).find?
        (fun kv => decide (kv.1 = k2)) =
      store.find? (fun kv => decide (kv.1 = k2)) := by
  rw [List.find?_filter]
  simp only [Bool.decide_and, decide_eq_true_eq, decide_eq_true]
  have hp : (fun (kv : TickerKey × Price) =>
      decide (kv.1 ≠ k) && decide (kv.1 = k2)) =
        fun kv => decide (kv.1 = k2) := by
    funext kv
    by_cases h2 : kv.1 = k2
    · simp [h2, h]
    · simp [h2]
  rw [hp]

/-- C9: a fetch of key k immediately after a process of (k, V) returns
exactly V; the write fully replaces the prior snapshot for k — the
processed store holds exactly one entry for k — and every other key
reads as before. -/
theorem processTicker_getTicker_roundTrip (store : TickerStore) (ex : String)
    (p : CurrencyPair) (v : Price) (a : String) :
    getTicker (processTicker store ex p v a) ex p a = Except.ok v ∧
    (processTicker store ex p v a).filter
        (fun kv => decide (kv.1 = ((ex, p, a) : TickerKey))) = [((ex, p, a), v)] ∧
    ∀ ex2 p2 a2, ((ex2, p2, a2) : TickerKey) ≠ (ex, p, a) →
      getTicker (processTicker store ex p v a) ex2 p2 a2 =
        getTicker store ex2 p2 a2 := by
  refine ⟨?_, ?_, ?_⟩
  · simp [getTicker, processTicker, List.find?_cons]
  · simp only [processTicker, List.filter_cons, List.filter_filter]
    have hnil : store.filter (fun kv =>
        decide (kv.1 = ((ex, p, a) : TickerKey)) &&
          decide (kv.1 ≠ ((ex, p, a) : TickerKey))) = [] := by
      refine List.filter_eq_nil_iff.mpr ?_
      intro kv _
      by_cases hk : kv.1 = ((ex, p, a) : TickerKey) <;> simp [hk]
    simp [hnil]
  · intro ex2 p2 a2 hne
    have hhd : ((ex, p, a) : TickerKey) ≠ (ex2, p2, a2) := fun hh => hne hh.symm
    simp only [getTicker, processTicker, List.find?_cons]
    rw [find?_filter_key_ne store (ex, p, a) (ex2, p2, a2) hne]
    simp [hhd]

/-- C9 witness: the round-trip and frame facts evaluated at a concrete
store — writing a BTC-USD Spot snapshot over a one-entry store returns
exactly the written value, keeps exactly one entry for that key, and
leaves a different key reading as before. -/
theorem processTicker_getTicker_roundTrip_witness :
    getTicker (processTicker
        [(("ItBit", { firstCurrency := "BTC", secondCurrency := "USD" }, "SPOT"),
          { last := 1 })]
        "ItBit" { firstCurrency := "BTC", secondCurrency := "USD" } { last := 2 }
        "SPOT") "ItBit" { firstCurrency := "BTC", secondCurrency := "USD" } "SPOT" =
      Except.ok { last := 2 } ∧
    getTicker (processTicker
        [(("ItBit", { firstCurrency := "BTC", secondCurrency := "USD" }, "SPOT"),
          { last := 1 })]
        "ItBit" { firstCurrency := "BTC", secondCurrency := "USD" } { last := 2 }
        "SPOT") "Bittrex" { firstCurrency := "BTC", secondCurrency := "USD" } "SPOT" =
      getTicker
        [(("ItBit", { firstCurrency := "BTC", secondCurrency := "USD" }, "SPOT"),
          { last := 1 })]
        "Bittrex" { firstCurrency := "BTC", secondCurrency := "USD" } "SPOT" := by
  constructor
  · exact (processTicker_getTicker_roundTrip
      [(("ItBit", { firstCurrency := "BTC", secondCurrency := "USD" }, "SPOT"),
        { last := 1 })]
      "ItBit" { firstCurrency := "BTC", secondCurrency := "USD" } { last := 2 }
      "SPOT").1
  · exact (processTicker_getTicker_roundTrip
      [(("ItBit", { firstCurrency := "BTC", secondCurrency := "USD" }, "SPOT"),
        { last := 1 })]
      "ItBit" { firstCurrency := "BTC", secondCurrency := "USD" } { last := 2 }
      "SPOT").2.2 "Bittrex" { firstCurrency := "BTC", secondCurrency := "USD" }
      "SPOT" (by decide)

/-- Outcome of one cached-fetch wrapper call: the final store, the
returned result, and the trace of update calls made, each recorded as
the (pair, assetType) it was invoked with. -/
structure FetchOutcome where
  store : TickerStore
  result : Except String Price
  updateCalls : List (CurrencyPair × String)
  deriving DecidableEq

/-- Type of the live update path (the UpdateTicker method of a
connector), abstracted as a store transformer returning a result. -/
abbrev UpdateTickerFn :=
  CurrencyPair → String → TickerStore → TickerStore × Except String Price

/-- Embedding of Bittrex.GetTickerPrice (exchange.go lines 985-992,
bittrex wrapper): the cache read uses the ticker.Spot constant as the
asset-type key, not the assetType argument; on a miss UpdateTicker is
called with the pair and assetType arguments. -/
def bittrexGetTickerPrice (name : String) (updateTicker : UpdateTickerFn)
    (st : TickerStore) (p : CurrencyPair) (assetType : String) : FetchOutcome :=
  match getTicker st name p tickerSpot with
  | Except.ok tick => { store := st, result := Except.ok tick, updateCalls := [] }
  | Except.error _ =>
    let r := updateTicker p assetType st
    { store := r.1, result := r.2, updateCalls := [(p, assetType)] }

/-- Embedding of ItBit.GetTickerPrice (src/unnamed/part_000 lines
53-60): the cache read uses the assetType argument as the key; on a
miss UpdateTicker is called with the same pair and assetType. -/
def itbitGetTickerPrice (name : String) (updateTicker : UpdateTickerFn)
    (st : TickerStore) (p : CurrencyPair) (assetType : String) : FetchOutcome :=
  match getTicker st name p assetType with
  | Except.ok tickerNew =>
    { store := st, result := Except.ok tickerNew, updateCalls := [] }
  | Except.error _ =>
    let r := updateTicker p assetType st
    { store := r.1, result := r.2, updateCalls := [(p, assetType)] }

/-- Embedding of Gateio.FetchTicker (src/unnamed/part_001 lines
126-133): the cache read uses the assetType argument as the key; on a
miss UpdateTicker is called with the same pair and assetType. -/
def gateioFetchTicker (name : String) (updateTicker : UpdateTickerFn)
    (st : TickerStore) (p : CurrencyPair) (assetType : String) : FetchOutcome :=
  match getTicker st name p assetType with
  | Except.ok tickerNew =>
    { store := st, result := Except.ok tickerNew, updateCalls := [] }
  | Except.error _ =>
    let r := updateTicker p assetType st
    { store := r.1, result := r.2, updateCalls := [(p, assetType)] }

/-- Concrete pair used in the cached-fetch scenarios. -/
def c5Pair : CurrencyPair := { firstCurrency := "BTC", secondCurrency := "USD" }

/-- Concrete ticker value used in the cached-fetch scenarios. -/
def c5Price : Price := { pair := c5Pair, last := 100 }

/-- An update path that always fails with a network error and leaves
the store unchanged, used to observe whether the update path ran. -/
def updateTickerFail : UpdateTickerFn :=
  fun _ _ st => (st, Except.error ("network error"))

/-- Store holding exactly one Bittrex snapshot, keyed under the
ticker.Spot asset type. -/
def c5Store : TickerStore := processTicker [] "Bittrex" c5Pair c5Price tickerSpot

/-- C5 counterexample: with the cache holding only a Spot-keyed
snapshot, a Bittrex cached fetch called with the FUTURES asset type
misses under the (exchange, pair, assetType) key it was called with,
yet returns the Spot-keyed cached value and performs no update call —
refuting the claim that every connector queries the cache under the
key it was called with and calls UpdateTicker on a miss. -/
theorem bittrexGetTickerPrice_counterexample :
    getTicker c5Store "Bittrex" c5Pair "FUTURES" =
      Except.error ("ticker not found for Bittrex") ∧
    bittrexGetTickerPrice "Bittrex" updateTickerFail c5Store c5Pair "FUTURES" =
      { store := c5Store, result := Except.ok c5Price, updateCalls := [] } := by
  decide

/-- C5 amended: ItBit.GetTickerPrice and Gateio.FetchTicker query the
cache under the exact (exchange, pair, assetType) key they were called
with, return the cached value on a hit with no update call, and on a
miss invoke UpdateTicker exactly once with the same pair and asset
type; Bittrex.GetTickerPrice follows the same pattern except that its
cache read uses the ticker.Spot constant as the asset-type key. -/
theorem fetchTicker_cache_pattern (name : String)
    (updateTicker : UpdateTickerFn) (st : TickerStore) (p : CurrencyPair)
    (a : String) :
    (∀ t, getTicker st name p a = Except.ok t →
      itbitGetTickerPrice name updateTicker st p a =
        { store := st, result := Except.ok t, updateCalls := [] }) ∧
    ((getTicker st name p a).isOk = false →
      itbitGetTickerPrice name updateTicker st p a =
        { store := (updateTicker p a st).1, result := (updateTicker p a st).2,
          updateCalls := [(p, a)] }) ∧
    (∀ t, getTicker st name p a = Except.ok t →
      gateioFetchTicker name updateTicker st p a =
        { store := st, result := Except.ok t, updateCalls := [] }) ∧
    ((getTicker st name p a).isOk = false →
      gateioFetchTicker name updateTicker st p a =
        { store := (updateTicker p a st).1, result := (updateTicker p a st).2,
          updateCalls := [(p, a)] }) ∧
    (∀ t, getTicker st name p tickerSpot = Except.ok t →
      bittrexGetTickerPrice name updateTicker st p a =
        { store := st, result := Except.ok t, updateCalls := [] }) ∧
    ((getTicker st name p tickerSpot).isOk = false →
      bittrexGetTickerPrice name updateTicker st p a =
        { store := (updateTicker p a st).1, result := (updateTicker p a st).2,
          updateCalls := [(p, a)] }) := by
  refine ⟨?_, ?_, ?_, ?_, ?_, ?_⟩
  · intro t ht; simp [itbitGetTickerPrice, ht]
  · intro hmiss
    cases hget : getTicker st name p a with
    | ok t => rw [hget] at hmiss; simp [Except.isOk, Except.toBool] at hmiss
    | error msg => simp [itbitGetTickerPrice, hget]
  · intro t ht; simp [gateioFetchTicker, ht]
  · intro hmiss
    cases hget : getTicker st name p a with
    | ok t => rw [hget] at hmiss; simp [Except.isOk, Except.toBool] at hmiss
    | error msg => simp [gateioFetchTicker, hget]
  · intro t ht; simp [bittrexGetTickerPrice, ht]
  · intro hmiss
    cases hget : getTicker st name p tickerSpot with
    | ok t => rw [hget] at hmiss; simp [Except.isOk, Except.toBool] at hmiss
    | error msg => simp [bittrexGetTickerPrice, hget]

/-- Store holding exactly one ItBit snapshot keyed under the Spot asset
type string used by the newer wrappers. -/
def c5HitStore : TickerStore := processTicker [] "ItBit" c5Pair c5Price "Spot"

/-- C5 witness: the amended pattern evaluated at concrete inputs — an
ItBit fetch hitting the cache returns the stored snapshot with no
update call, and a Gateio fetch on an empty cache performs exactly one
update call carrying the pair and asset type it received. -/
theorem fetchTicker_cache_pattern_witness :
    itbitGetTickerPrice "ItBit" updateTickerFail c5HitStore c5Pair "Spot" =
      { store := c5HitStore, result := Except.ok c5Price, updateCalls := [] } ∧
    gateioFetchTicker "GateIO" updateTickerFail [] c5Pair "Spot" =
      { store := [], result := Except.error ("network error"),
        updateCalls := [(c5Pair, "Spot")] } := by
  constructor
  · exact (fetchTicker_cache_pattern "ItBit" updateTickerFail c5HitStore c5Pair
      "Spot").1 c5Price (by decide)
  · exact (fetchTicker_cache_pattern "GateIO" updateTickerFail [] c5Pair
      "Spot").2.2.2.1 (by decide)

/-- Mapping a function over an interspersed list intersperses the mapped
separator. -/
theorem map_intersperse {α β : Type} (f : α → β) (sep : α) :
    ∀ l : List α, (l.intersperse sep).map f = (l.map f).intersperse (f sep)
  | [] => rfl
  | [_] => rfl
  | x :: y :: zs => by
    simp only [List.intersperse_cons₂, List.map_cons]
    rw [map_intersperse f sep (y :: zs)]
    simp

/-- Mapping a function over an intercalated list intercalates the mapped
separator. -/
theorem map_intercalate {α β : Type} (f : α → β) (sep : List α)
    (L : List (List α)) :
    (List.intercalate sep L).map f =
      List.intercalate (sep.map f) (L.map (List.map f)) := by
  simp only [List.intercalate, List.map_flatten, map_intersperse]

/-- Modelled from the spec: common.JoinStrings (absent from src), the
strings.Join wrapper. -/
def joinStrings (l : List String) (sep : String) : String :=
  ⟨List.intercalate sep.data (l.map String.data)⟩

/-- Modelled from the spec: common.StringToUpper (absent from src), the
strings.ToUpper wrapper. -/
def stringToUpper (s : String) : String :=
  ⟨s.data.map Char.toUpper⟩

/-- Modelled from the spec: common.SplitStrings (absent from src), the
strings.Split wrapper, specialised to the one-character separator the
reconciliation code uses. -/
def splitStrings (s : String) (sep : Char) : List String :=
  (s.data.splitOn sep).map (fun cs => ⟨cs⟩)

/-- Embedding of the normalisation step of Base.UpdateCurrencies
(exchange.go lines 678-686): join the fetched products with commas,
uppercase the result, split on commas again, and drop empty entries. -/
def normalizeProducts (exchangeProducts : List String) : List String :=
  (splitStrings (stringToUpper (joinStrings exchangeProducts ",")) ',').filter
    (fun p => decide (p ≠ ""))

/-- The normalisation step is exactly uppercase-then-drop-empties for
every non-empty product list whose uppercased symbols are comma-free
(the source round-trips the list through one comma-joined string). -/
theorem normalizeProducts_eq_map_filter (l : List String) (hne : l ≠ [])
    (hcomma : ∀ s ∈ l, (',' : Char) ∉ (stringToUpper s).data) :
    normalizeProducts l =
      (l.map stringToUpper).filter (fun p => decide (p ≠ "")) := by
  have hdata : (stringToUpper (joinStrings l ",")).data
      = List.intercalate [','] (l.map (fun s => s.data.map Char.toUpper)) := by
    show (List.intercalate ((",").data) (l.map String.data)).map Char.toUpper = _
    rw [map_intercalate]
    rw [show ((",").data.map Char.toUpper) = [','] by decide]
    rw [List.map_map]
    rfl
  have hM : ∀ m ∈ l.map (fun s => s.data.map Char.toUpper), (',' : Char) ∉ m := by
    intro m hm
    obtain ⟨s, hs, rfl⟩ := List.mem_map.mp hm
    exact hcomma s hs
  have hMne : l.map (fun s => s.data.map Char.toUpper) ≠ [] := by
    intro hmap
    exact hne (List.map_eq_nil_iff.mp hmap)
  unfold normalizeProducts splitStrings
  rw [hdata, List.splitOn_intercalate _ ',' hM hMne, List.map_map]
  rfl

/-- Modelled from the spec: pair.FindPairDifferences of the
currency/pair package (absent from src) — newPairs is the fetched list
minus the known list, removedPairs the known list minus the fetched
list, set difference on the symbol strings. -/
def findPairDifferences (known fetched : List String) :
    List String × List String :=
  (fetched.filter (fun p => decide (p ∉ known)),
   known.filter (fun p => decide (p ∉ fetched)))

/-- Modelled from the spec: the persisted per-exchange configuration
record of the config package (absent from src); pair lists are stored
as comma-joined strings, endpoint URLs as plain strings. -/
structure ExchangeConfig where
  name : String := ""
  enabledPairs : String := ""
  availablePairs : String := ""
  apiURL : String := ""
  apiURLSecondary : String := ""
  deriving DecidableEq

/-- Modelled from the spec: the configuration store, a synchronous
key-value-by-name collection of exchange configuration records. -/
structure Config where
  exchanges : List ExchangeConfig := []
  deriving DecidableEq

/-- Error text ErrExchangeNotFound (exchange.go line 27). -/
def ErrExchangeNotFound : String := "Exchange not found in dataset"

/-- Modelled from the spec: config.GetExchangeConfig (absent from src)
— looks the exchange up by name, failing when it is absent. -/
def getExchangeConfig (cfg : Config) (name : String) :
    Except String ExchangeConfig :=
  match cfg.exchanges.find? (fun x => decide (x.name = name)) with
  | some exch => Except.ok exch
  | none => Except.error ErrExchangeNotFound

/-- Modelled from the spec: config.UpdateExchangeConfig (absent from
src) — replaces the stored record bearing the same name. -/
def updateExchangeConfig (cfg : Config) (exch : ExchangeConfig) : Config :=
  { exchanges :=
      cfg.exchanges.map (fun x => if x.name = exch.name then exch else x) }

/-- Embedding of the diff step of Base.UpdateCurrencies (exchange.go
lines 688-697): which stored list is diffed against the normalised
products depends on the enabled flag. -/
def updateCurrenciesDiff (e : Base) (exchangeProducts : List String)
    (enabled : Bool) : List String × List String :=
  let products := normalizeProducts exchangeProducts
  if enabled then findPairDifferences e.enabledPairs products
  else findPairDifferences e.availablePairs products

/-- Result of one reconciliation call: the updated profile, the updated
configuration store, the returned error, and whether a persistence
write (UpdateExchangeConfig) occurred. -/
structure UpdateOutcome where
  base : Base
  cfg : Config
  error : Option String
  wrote : Bool
  deriving DecidableEq

/-- Embedding of Base.UpdateCurrencies (exchange.go lines 673-727):
reject an empty product list, normalise, diff, and when forced or the
diff is non-empty persist the full normalised list as the current set,
replacing the in-memory pair list as well; otherwise change nothing. -/
def updateCurrencies (e : Base) (cfg : Config) (exchangeProducts : List String)
    (enabled force : Bool) : UpdateOutcome :=
  if exchangeProducts = [] then
    { base := e, cfg := cfg,
      error :=
        some (e.name ++ " UpdateCurrencies error - exchangeProducts is empty"),
      wrote := false }
  else
    let products := normalizeProducts exchangeProducts
    let d := updateCurrenciesDiff e exchangeProducts enabled
    if force = true ∨ d.1 ≠ [] ∨ d.2 ≠ [] then
      match getExchangeConfig cfg e.name with
      | Except.error err =>
        { base := e, cfg := cfg, error := some err, wrote := false }
      | Except.ok exch =>
        if enabled then
          { base := { e with enabledPairs := products },
            cfg := updateExchangeConfig cfg
              { exch with enabledPairs := joinStrings products "," },
            error := none, wrote := true }
        else
          { base := { e with availablePairs := products },
            cfg := updateExchangeConfig cfg
              { exch with availablePairs := joinStrings products "," },
            error := none, wrote := true }
    else { base := e, cfg := cfg, error := none, wrote := false }

/-- Embedding of Gateio.UpdateTradablePairs (src/unnamed/part_001 lines
94-101), with the live fetch outcome passed in as a parameter; the
UpdatePairs helper it calls (absent from src) is modelled from the
spec as the UpdateCurrencies full-replacement algorithm over the
available list. -/
def updateTradablePairs (g : Base) (cfg : Config)
    (fetchResult : Except String (List String)) (forceUpdate : Bool) :
    UpdateOutcome :=
  match fetchResult with
  | Except.error err =>
    { base := g, cfg := cfg, error := some err, wrote := false }
  | Except.ok pairs => updateCurrencies g cfg pairs false forceUpdate

/-- C1: Base.UpdateCurrencies first normalises the fetched list —
uppercases every symbol and drops empty entries — and then computes
newPairs as exactly the normalised fetched symbols absent from the
known list and removedPairs as exactly the known symbols absent from
the normalised fetched list.  Symbols are assumed comma-free after
uppercasing because the source round-trips the list through one
comma-joined string. -/
theorem updateCurrencies_diff_correct (e : Base) (fetched : List String)
    (enabled : Bool) (hne : fetched ≠ [])
    (hcomma : ∀ s ∈ fetched, (',' : Char) ∉ (stringToUpper s).data) :
    normalizeProducts fetched =
      (fetched.map stringToUpper).filter (fun p => decide (p ≠ "")) ∧
    updateCurrenciesDiff e fetched enabled =
      ((normalizeProducts fetched).filter (fun p =>
          decide (p ∉ (if enabled then e.enabledPairs else e.availablePairs))),
        (if enabled then e.enabledPairs else e.availablePairs).filter (fun p =>
          decide (p ∉ normalizeProducts fetched))) := by
  refine ⟨normalizeProducts_eq_map_filter fetched hne hcomma, ?_⟩
  cases enabled <;> simp [updateCurrenciesDiff, findPairDifferences]

/-- C1 witness: with known enabled pairs BTC-USD and ETH-USD and
fetched pairs BTC-USD and LTC-USD, the normalised list is the fetched
list itself and the diff is newPairs LTC-USD, removedPairs ETH-USD. -/
theorem updateCurrencies_diff_correct_witness :
    normalizeProducts ["BTC-USD", "LTC-USD"] = ["BTC-USD", "LTC-USD"] ∧
    updateCurrenciesDiff { enabledPairs := ["BTC-USD", "ETH-USD"] }
        ["BTC-USD", "LTC-USD"] true = (["LTC-USD"], ["ETH-USD"]) := by
  have h := updateCurrencies_diff_correct
    { enabledPairs := ["BTC-USD", "ETH-USD"] } ["BTC-USD", "LTC-USD"] true
    (by decide) (by decide)
  exact ⟨h.1.trans (by decide), h.2.trans (by decide)⟩

/-- C2: given a non-empty product list and a configuration entry for
the exchange, UpdateCurrencies performs a persistence write and a full
replacement of the stored pair set exactly when force is set or either
diff set is non-empty; without a write the in-memory profile and the
configuration store are left unchanged. -/
theorem updateCurrencies_write_iff (e : Base) (cfg : Config)
    (exchangeProducts : List String) (enabled force : Bool)
    (hne : exchangeProducts ≠ [])
    (hcfg : ∃ exch, getExchangeConfig cfg e.name = Except.ok exch) :
    ((updateCurrencies e cfg exchangeProducts enabled force).wrote = true ↔
      (force = true ∨
        (updateCurrenciesDiff e exchangeProducts enabled).1 ≠ [] ∨
        (updateCurrenciesDiff e exchangeProducts enabled).2 ≠ [])) ∧
    ((updateCurrencies e cfg exchangeProducts enabled force).wrote = true →
      (if enabled then
        (updateCurrencies e cfg exchangeProducts enabled force).base.enabledPairs
      else
        (updateCurrencies e cfg exchangeProducts enabled force).base.availablePairs)
        = normalizeProducts exchangeProducts) ∧
    ((updateCurrencies e cfg exchangeProducts enabled force).wrote = false →
      (updateCurrencies e cfg exchangeProducts enabled force).base = e ∧
      (updateCurrencies e cfg exchangeProducts enabled force).cfg = cfg ∧
      (updateCurrencies e cfg exchangeProducts enabled force).error = none) := by
  obtain ⟨exch, hex⟩ := hcfg
  by_cases hc : force = true ∨
      (updateCurrenciesDiff e exchangeProducts enabled).1 ≠ [] ∨
      (updateCurrenciesDiff e exchangeProducts enabled).2 ≠ []
  · cases he : enabled
    · rw [he] at hc
      simp [updateCurrencies, hne, hex, hc, he]
    · rw [he] at hc
      simp [updateCurrencies, hne, hex, hc, he]
  · cases he : enabled
    · rw [he] at hc
      simp [updateCurrencies, hne, hc, he]
    · rw [he] at hc
      simp [updateCurrencies, hne, hc, he]

/-- Configuration record used by the forced-reconciliation scenario. -/
def c2Exchange : ExchangeConfig :=
  { name := "Bittrex", availablePairs := "BTC-USD,ETH-USD" }

/-- Configuration store used by the forced-reconciliation scenario. -/
def c2Config : Config := { exchanges := [c2Exchange] }

/-- Profile used by the forced-reconciliation scenario. -/
def c2Base : Base :=
  { name := "Bittrex", availablePairs := ["BTC-USD", "ETH-USD"] }

/-- C2 witness: forced reconciliation with an identical fetched list
still writes, and an unforced one with an empty diff does not write and
leaves the profile untouched. -/
theorem updateCurrencies_write_iff_witness :
    (updateCurrencies c2Base c2Config ["BTC-USD", "ETH-USD"] false true).wrote
      = true ∧
    (updateCurrencies c2Base c2Config ["BTC-USD", "ETH-USD"] false false).wrote
      = false ∧
    (updateCurrencies c2Base c2Config ["BTC-USD", "ETH-USD"] false false).base
      = c2Base := by
  have hforced := updateCurrencies_write_iff c2Base c2Config
    ["BTC-USD", "ETH-USD"] false true (by decide) ⟨c2Exchange, by decide⟩
  have hplain := updateCurrencies_write_iff c2Base c2Config
    ["BTC-USD", "ETH-USD"] false false (by decide) ⟨c2Exchange, by decide⟩
  have hcond : ¬(false = true ∨
      (updateCurrenciesDiff c2Base ["BTC-USD", "ETH-USD"] false).1 ≠ [] ∨
      (updateCurrenciesDiff c2Base ["BTC-USD", "ETH-USD"] false).2 ≠ []) := by
    decide
  have hw : (updateCurrencies c2Base c2Config ["BTC-USD", "ETH-USD"] false
      false).wrote = false := by
    cases hww : (updateCurrencies c2Base c2Config ["BTC-USD", "ETH-USD"] false
        false).wrote
    · rfl
    · exact absurd (hplain.1.mp hww) hcond
  exact ⟨hforced.1.mpr (Or.inl rfl), hw, (hplain.2.2 hw).1⟩

/-- C6: reconciliation is atomic on error — a failed live pair fetch
surfaces the error with the profile and the store untouched and no
persistence write, and an empty product list passed to UpdateCurrencies
likewise returns an error while changing nothing. -/
theorem reconciliation_failure_atomic :
    (∀ (g : Base) (cfg : Config) (msg : String) (force : Bool),
      updateTradablePairs g cfg (Except.error msg) force =
        { base := g, cfg := cfg, error := some msg, wrote := false }) ∧
    (∀ (e : Base) (cfg : Config) (enabled force : Bool),
      updateCurrencies e cfg [] enabled force =
        { base := e, cfg := cfg,
          error := some
            (e.name ++ " UpdateCurrencies error - exchangeProducts is empty"),
          wrote := false }) :=
  ⟨fun _ _ _ _ => rfl, fun _ _ _ _ => rfl⟩

/-- Modelled from the spec: the outcomes of the three fallible calls
inside Base.SetClientProxyAddress — url.Parse and the proxy setters of
the request and websocket packages (absent from src).  On success the
component records the new proxy address; on failure it is left
unchanged. -/
structure ProxyOutcomes where
  parse : Except String Unit
  requesterSet : Except String Unit
  websocketSet : Except String Unit
  deriving DecidableEq

/-- Embedding of Base.SetClientProxyAddress (exchange.go lines
334-357): parse the address, configure the Requester proxy, and only
then — when a Websocket exists — configure the Websocket proxy,
returning early on the first failure. -/
def setClientProxyAddress (env : ProxyOutcomes) (e : Base) (addr : String) :
    Base × Option String :=
  if addr = "" then (e, none)
  else
    match env.parse with
    | Except.error msg =>
      (e, some ("exchange.go - setting proxy address error " ++ msg))
    | Except.ok _ =>
      match env.requesterSet with
      | Except.error msg =>
        (e, some ("exchange.go - setting proxy address error " ++ msg))
      | Except.ok _ =>
        let e1 := { e with requesterProxy := some addr }
        if e1.hasWebsocket then
          match env.websocketSet with
          | Except.error msg => (e1, some msg)
          | Except.ok _ => ({ e1 with websocketProxy := some addr }, none)
        else (e1, none)

/-- Environment in which the Websocket proxy configuration fails after
the Requester proxy configuration succeeded. -/
def c7Env : ProxyOutcomes :=
  { parse := Except.ok (), requesterSet := Except.ok (),
    websocketSet := Except.error "websocket proxy failure" }

/-- Profile owning a Websocket and no proxy yet. -/
def c7Base : Base := { name := "Bitfinex", hasWebsocket := true }

/-- C7 counterexample: when the Websocket proxy configuration fails
after the Requester proxy was already configured, SetClientProxyAddress
returns an error yet the Requester is left holding the new proxy while
the Websocket is not — partial proxy state persists, refuting the
atomicity claim. -/
theorem setClientProxyAddress_counterexample :
    (setClientProxyAddress c7Env c7Base "http://proxy:8080").2 =
      some "websocket proxy failure" ∧
    (setClientProxyAddress c7Env c7Base "http://proxy:8080").1.requesterProxy =
      some "http://proxy:8080" ∧
    (setClientProxyAddress c7Env c7Base "http://proxy:8080").1.websocketProxy =
      none := by
  decide

/-- C7 amended: for every non-empty address, a parse failure or a
Requester proxy failure returns an error with the profile unchanged;
when both the parse and the Requester step succeed the Requester holds
the new proxy, and a subsequent Websocket proxy failure returns the
error without rolling the Requester back — only when every step
succeeds do both components hold the new proxy. -/
theorem setClientProxyAddress_sequencing (env : ProxyOutcomes) (e : Base)
    (addr : String) (haddr : addr ≠ "") :
    (∀ msg, env.parse = Except.error msg →
      setClientProxyAddress env e addr =
        (e, some ("exchange.go - setting proxy address error " ++ msg))) ∧
    (∀ msg, env.parse = Except.ok () → env.requesterSet = Except.error msg →
      setClientProxyAddress env e addr =
        (e, some ("exchange.go - setting proxy address error " ++ msg))) ∧
    (env.parse = Except.ok () → env.requesterSet = Except.ok () →
      e.hasWebsocket = false →
      setClientProxyAddress env e addr =
        ({ e with requesterProxy := some addr }, none)) ∧
    (∀ msg, env.parse = Except.ok () → env.requesterSet = Except.ok () →
      e.hasWebsocket = true → env.websocketSet = Except.error msg →
      setClientProxyAddress env e addr =
        ({ e with requesterProxy := some addr }, some msg)) ∧
    (env.parse = Except.ok () → env.requesterSet = Except.ok () →
      e.hasWebsocket = true → env.websocketSet = Except.ok () →
      setClientProxyAddress env e addr =
        ({ e with requesterProxy := some addr, websocketProxy := some addr },
          none)) := by
  refine ⟨?_, ?_, ?_, ?_, ?_⟩
  · intro msg hp
    simp [setClientProxyAddress, haddr, hp]
  · intro msg hp hr
    simp [setClientProxyAddress, haddr, hp, hr]
  · intro hp hr hws
    simp [setClientProxyAddress, haddr, hp, hr, hws]
  · intro msg hp hr hws hwserr
    simp [setClientProxyAddress, haddr, hp, hr, hws, hwserr]
  · intro hp hr hws hwsok
    simp [setClientProxyAddress, haddr, hp, hr, hws, hwsok]

/-- C7 witness: the amended sequencing evaluated at concrete inputs —
with every step succeeding, both components hold the new proxy and no
error is returned. -/
theorem setClientProxyAddress_sequencing_witness :
    setClientProxyAddress
        { parse := Except.ok (), requesterSet := Except.ok (),
          websocketSet := Except.ok () } c7Base "http://proxy:8080" =
      ({ c7Base with
          requesterProxy := some "http://proxy:8080",
          websocketProxy := some "http://proxy:8080" }, none) := by
  exact (setClientProxyAddress_sequencing
    { parse := Except.ok (), requesterSet := Except.ok (),
      websocketSet := Except.ok () } c7Base "http://proxy:8080"
    (by decide)).2.2.2.2 rfl rfl rfl rfl

/-- Modelled from the spec: the config package placeholder written into
unconfigured endpoint URL fields (absent from src); SetAPIURL treats it
as an unresolved non-default marker. -/
def APIURLNonDefaultMessage : String := "NON_DEFAULT_HTTP_LINK_TO_EXCHANGE_API"

/-- Embedding of Base.SetAPIURL (exchange.go lines 776-787): reject
empty endpoint URLs with an error; copy each URL into the profile only
when it is not the placeholder. -/
def setAPIURL (e : Base) (ec : ExchangeConfig) : Base × Option String :=
  if ec.apiURL = "" ∨ ec.apiURLSecondary = "" then
    (e, some "SetAPIURL error variable zero value")
  else
    let e1 := if ec.apiURL ≠ APIURLNonDefaultMessage then
      { e with apiUrl := ec.apiURL } else e
    let e2 := if ec.apiURLSecondary ≠ APIURLNonDefaultMessage then
      { e1 with apiUrlSecondary := ec.apiURLSecondary } else e1
    (e2, none)

/-- C8 counterexample: a configuration whose primary URL is the
unresolved placeholder and whose secondary URL is a plain address makes
SetAPIURL succeed — no configuration error is returned, the claim that
an unresolved placeholder fails is refuted — while the profile URL
field is indeed left unchanged. -/
theorem setAPIURL_counterexample :
    (setAPIURL { }
        { apiURL := APIURLNonDefaultMessage,
          apiURLSecondary := "https://api.example.com" }).2 = none ∧
    (setAPIURL { }
        { apiURL := APIURLNonDefaultMessage,
          apiURLSecondary := "https://api.example.com" }).1.apiUrl = "" := by
  decide

/-- C8 amended: applying endpoint configuration fails exactly when a
required endpoint URL is empty; an unresolved placeholder does not
fail — the corresponding profile URL field is simply not overwritten —
and a non-empty non-placeholder URL is copied into the profile. -/
theorem setAPIURL_spec (e : Base) (ec : ExchangeConfig) :
    (((setAPIURL e ec).2).isSome = true ↔
      (ec.apiURL = "" ∨ ec.apiURLSecondary = "")) ∧
    (ec.apiURL = APIURLNonDefaultMessage →
      (setAPIURL e ec).1.apiUrl = e.apiUrl) ∧
    (ec.apiURLSecondary = APIURLNonDefaultMessage →
      (setAPIURL e ec).1.apiUrlSecondary = e.apiUrlSecondary) ∧
    (ec.apiURL ≠ "" → ec.apiURLSecondary ≠ "" →
      ec.apiURL ≠ APIURLNonDefaultMessage →
      (setAPIURL e ec).1.apiUrl = ec.apiURL) ∧
    (ec.apiURL ≠ "" → ec.apiURLSecondary ≠ "" →
      ec.apiURLSecondary ≠ APIURLNonDefaultMessage →
      (setAPIURL e ec).1.apiUrlSecondary = ec.apiURLSecondary) := by
  by_cases hz : ec.apiURL = "" ∨ ec.apiURLSecondary = ""
  · refine ⟨by simp [setAPIURL, hz], ?_, ?_, ?_, ?_⟩
    · intro hp
      simp [setAPIURL, hz]
    · intro hp
      simp [setAPIURL, hz]
    · intro h1 h2 hp
      exact absurd hz (by simp [h1, h2])
    · intro h1 h2 hp
      exact absurd hz (by simp [h1, h2])
  · have hmsg : APIURLNonDefaultMessage ≠ "" := by decide
    push_neg at hz
    obtain ⟨h1, h2⟩ := hz
    refine ⟨by simp [setAPIURL, h1, h2], ?_, ?_, ?_, ?_⟩
    · intro hp
      by_cases hs : ec.apiURLSecondary ≠ APIURLNonDefaultMessage <;>
        simp [setAPIURL, h1, h2, hp, hs, hmsg]
    · intro hs
      by_cases hp : ec.apiURL ≠ APIURLNonDefaultMessage <;>
        simp [setAPIURL, h1, h2, hp, hs, hmsg]
    · intro hp1 hp2 hp
      by_cases hs : ec.apiURLSecondary ≠ APIURLNonDefaultMessage <;>
        simp [setAPIURL, h1, h2, hp, hs, hmsg]
    · intro hp1 hp2 hs
      by_cases hp : ec.apiURL ≠ APIURLNonDefaultMessage <;>
        simp [setAPIURL, h1, h2, hp, hs, hmsg]

/-- C8 witness: the amended behaviour evaluated at concrete inputs — a
configuration with two plain URLs succeeds and copies both into the
profile, and one with an empty primary URL fails. -/
theorem setAPIURL_spec_witness :
    (setAPIURL { }
        { apiURL := "https://a.example.com",
          apiURLSecondary := "https://b.example.com" }).1.apiUrl =
      "https://a.example.com" ∧
    ((setAPIURL { }
        { apiURL := "", apiURLSecondary := "https://b.example.com" }).2).isSome
      = true := by
  constructor
  · exact (setAPIURL_spec { }
      { apiURL := "https://a.example.com",
        apiURLSecondary := "https://b.example.com" }).2.2.2.1
      (by decide) (by decide) (by decide)
  · exact (setAPIURL_spec { }
      { apiURL := "", apiURLSecondary := "https://b.example.com" }).1.mpr
      (Or.inl rfl)

/-- Embedding of Base.SetAPIKeys (exchange.go lines 620-639), with the
common.Base64Decode helper (absent from src) modelled from the spec as
a decoder returning none on invalid input — in which case the Go code
stores the stringified nil result, the empty string, and switches off
authenticated support. -/
def setAPIKeys (base64Decode : String → Option String) (e : Base)
    (apiKey apiSecret clientID : String) (b64Decode : Bool) : Base :=
  if e.authenticatedAPISupport = false then e
  else
    let e1 := { e with apiKey := apiKey, clientID := clientID }
    if b64Decode then
      match base64Decode apiSecret with
      | some result => { e1 with apiSecret := result }
      | none =>
        { e1 with apiSecret := "", authenticatedAPISupport := false }
    else { e1 with apiSecret := apiSecret }

/-- C10: with authenticated support off, SetAPIKeys changes nothing —
the supplied credentials are silently discarded; and when a requested
base64 decode fails, it stores the empty decode result as the secret,
switches authenticated support off, and touches no field other than
APIKey, ClientID, APISecret and AuthenticatedAPISupport. -/
theorem setAPIKeys_frame (base64Decode : String → Option String) (e : Base)
    (apiKey apiSecret clientID : String) (b64Decode : Bool) :
    (e.authenticatedAPISupport = false →
      setAPIKeys base64Decode e apiKey apiSecret clientID b64Decode = e) ∧
    (e.authenticatedAPISupport = true → b64Decode = true →
      base64Decode apiSecret = none →
      setAPIKeys base64Decode e apiKey apiSecret clientID b64Decode =
        { e with
            apiKey := apiKey, clientID := clientID, apiSecret := "",
            authenticatedAPISupport := false }) := by
  constructor
  · intro h
    simp [setAPIKeys, h]
  · intro h hb hd
    simp [setAPIKeys, h, hb, hd]

/-- C10 witness: the frame conditions evaluated at concrete inputs —
with support off the profile is untouched, and with a failing decode
only the four credential fields change. -/
theorem setAPIKeys_frame_witness :
    setAPIKeys (fun _ => none) { name := "ANX" } "key" "secret" "client" true =
      { name := "ANX" } ∧
    setAPIKeys (fun _ => none)
        { name := "ANX", authenticatedAPISupport := true }
        "key" "secret" "client" true =
      { name := "ANX", authenticatedAPISupport := false, apiKey := "key",
        clientID := "client", apiSecret := "" } := by
  constructor
  · exact (setAPIKeys_frame (fun _ => none) { name := "ANX" } "key" "secret"
      "client" true).1 rfl
  · exact ((setAPIKeys_frame (fun _ => none)
      { name := "ANX", authenticatedAPISupport := true } "key" "secret"
      "client" true).2 rfl rfl rfl).trans (by decide)
